import Mathlib

/-!
A shallow embedding of `boss_poster.py`, the single script of the
Daily-boss-checker repository, together with theorems checking the
specification's claims about its extraction-and-ranking pipeline.

The script fetches an HTML page, collects every `<article>` element,
extracts from each the text of its first `<a>` (boss name) and first
`<strong>` (spawn chance), keeps the entries whose chance text is a
parseable percentage, sorts them by chance descending (Python's stable
sort with `reverse=True`), truncates to the first five, renders a
Discord embed, and posts exactly one message per run.

Modelling conventions:
- An `<article>` element is modelled by the text of its first `<a>`
  and first `<strong>` child (`none` when the child is absent), which
  is all the script reads from it.
- A fetched document is modelled by the outcome of the transport step:
  either the list of `<article>` elements found by `find_all`, or an
  HTTP error message (`response.raise_for_status`).
- Python's `str.strip` is modelled by dropping whitespace characters
  from both ends of the character list.
- Python's `float(s)` is modelled exactly on plain decimal literals
  (optional sign, digits, optional fractional part, surrounding
  whitespace) as an unreduced fraction numerator/denominator;
  exponent forms, `inf`/`nan` and underscore separators are outside
  the model. `int(x)` on a float is truncation toward zero, modelled
  by `Int.tdiv`.
- `list.sort(key=..., reverse=True)` is Python's stable sort, placing
  higher keys first and keeping equal-key elements in their original
  relative order; it is modelled by `List.insertionSort` under the
  relation "left element's chance is at least the right one's", which
  computes exactly that stable descending order.
- `sys.exit(1)` and the Discord webhook call are modelled by a run
  trace recording whether the process exited fatally before running,
  whether a fetch was attempted, and the list of outbound
  notifications handed to the webhook.
-/

/-- One `<article>` element of the scraped page, reduced to what the
script reads from it: the text of its first `<a>` child (the boss
name link) and the text of its first `<strong>` child (the chance),
`none` when `find` returns no such child. -/
structure Article where
  boss_name_element : Option String
  chance_element : Option String
deriving DecidableEq, Repr

/-- Outcome of the transport step of `scrape_top_bosses`: either the
list of `<article>` elements found in the fetched document, or the
HTTP error raised by `response.raise_for_status` (carrying the text
of the exception). -/
inductive FetchResult where
  | success (boss_articles : List Article)
  | httpError (msg : String)
deriving DecidableEq, Repr

/-- The hard-coded target URL (`BOSS_TRACKER_URL` in the script). -/
def BOSS_TRACKER_URL : String := "https://www.exevopan.com/bosses/celesta"

/-- Model of Python `str.strip`: remove whitespace from both ends. -/
def pyStrip (s : String) : String :=
  ⟨((s.data.dropWhile Char.isWhitespace).reverse.dropWhile Char.isWhitespace).reverse⟩

/-- Model of Python `str.endswith` for a one-character suffix: the
last character is that character. -/
def pyEndsWith (s : String) (c : Char) : Bool :=
  s.data.getLast? == some c

/-- Value of a digit string, most significant first. -/
def digitsToNat (l : List Char) : Nat :=
  l.foldl (fun acc c => acc * 10 + (c.toNat - 48)) 0

/-- Model of Python `float(s)` on plain decimal literals: optional
surrounding whitespace, optional sign, then digits with at most one
decimal point and at least one digit overall. Returns the exact
value as an unreduced fraction (numerator, positive denominator);
`none` where `float` raises `ValueError`. -/
def pythonFloat (s : String) : Option (Int × Nat) :=
  let cs := (pyStrip s).data
  let signed : Int × List Char :=
    match cs with
    | '-' :: t => (-1, t)
    | '+' :: t => (1, t)
    | t => (1, t)
  match (signed.2).splitOn '.' with
  | [intPart] =>
      if intPart ≠ [] ∧ intPart.all Char.isDigit then
        some (signed.1 * (digitsToNat intPart : Int), 1)
      else none
  | [intPart, fracPart] =>
      if (intPart ≠ [] ∨ fracPart ≠ []) ∧ intPart.all Char.isDigit ∧
          fracPart.all Char.isDigit then
        some (signed.1 *
          ((digitsToNat intPart : Int) * (10 : Int) ^ fracPart.length +
            (digitsToNat fracPart : Int)),
          10 ^ fracPart.length)
      else none
  | _ => none

/-- Model of Python `int(x)` on a float value given as a fraction:
truncation toward zero. -/
def pyInt (q : Int × Nat) : Int := Int.tdiv q.1 q.2

/-- Model of `chance_text.replace` removing every percent sign. -/
def stripPercentAll (s : String) : String :=
  ⟨s.data.filter (fun c => c ≠ '%')⟩

/-- The chance-conversion step of the loop body (lines 64-71 of the
script): the stripped `<strong>` text must end in a percent sign, the
percent signs are removed, the rest is parsed by `float` and
truncated to an integer by `int`; every failure means the entry is
skipped. -/
def parseChance (chance_text : String) : Option Int :=
  if pyEndsWith chance_text '%' then
    match pythonFloat (stripPercentAll chance_text) with
    | some q => some (pyInt q)
    | none => none
  else none

/-- The whole loop body of `scrape_top_bosses` for one article
(lines 53-71): both child elements must be present, their texts are
stripped, and the chance text must convert; otherwise the article
contributes nothing. -/
def parseArticle (item : Article) : Option (String × Int) :=
  match item.boss_name_element, item.chance_element with
  | some nameEl, some chanceEl =>
      match parseChance (pyStrip chanceEl) with
      | some chance_percent => some (pyStrip nameEl, chance_percent)
      | none => none
  | _, _ => none

/-- `bosses_data` after the loop: the records extracted from the
articles, in document order. -/
def bosses_data (boss_articles : List Article) : List (String × Int) :=
  boss_articles.filterMap parseArticle

/-- The order realising `bosses_data.sort(key=lambda x: x[1],
reverse=True)`: the left record's chance is at least the right
one's. A stable sort under this relation puts higher chances first
and keeps equal-chance records in document order, exactly as
Python's stable `list.sort` with `reverse=True` does. -/
def byChanceDesc (a b : String × Int) : Prop := b.2 ≤ a.2

instance : DecidableRel byChanceDesc :=
  fun a b => inferInstanceAs (Decidable (b.2 ≤ a.2))

instance : IsTotal (String × Int) byChanceDesc :=
  ⟨fun a b => Int.le_total b.2 a.2⟩

instance : IsTrans (String × Int) byChanceDesc :=
  ⟨fun _ _ _ h1 h2 => le_trans h2 h1⟩

/-- The sorted record list (line 78 of the script): the stable
descending sort of `bosses_data`. -/
def sortedRecords (boss_articles : List Article) : List (String × Int) :=
  List.insertionSort byChanceDesc (bosses_data boss_articles)

/-- `top_5_bosses` (line 79): the first five sorted records. -/
def top_5_bosses (boss_articles : List Article) : List (String × Int) :=
  (sortedRecords boss_articles).take 5

/-- Error message returned when `find_all` yields no articles
(line 51). -/
def anchorNotFoundMsg : String :=
  "Error: Could not find boss data on Exevo Pan. The website's HTML structure may have changed."

/-- Error message returned when articles were found but no record
parsed (line 75). -/
def parseFailMsg : String :=
  "Error: Found boss articles but couldn't parse name/chance. Bot needs updating."

/-- Error message of the dead branch at line 83. -/
def emptyTopMsg : String :=
  "Error: Parsed bosses but top 5 list is empty."

/-- Error message built from an HTTP exception (line 105). -/
def httpErrMsg (http_err : String) : String :=
  "An error occurred while processing boss data: " ++ http_err ++
    ". The site may be blocking the bot."

/-- Error message built from any other exception (line 109). -/
def unexpectedErrMsg (e : String) : String :=
  "An unexpected error occurred: " ++ e ++ "."

/-- The Discord embed as the script assembles it (lines 86-97),
reduced to its data content. -/
structure DiscordEmbed where
  title : String
  color : String
  url : String
  description : String
  fields : List (String × String)
  footer : String
deriving DecidableEq, Repr

/-- Medal emoji chosen per one-based rank (line 92). -/
def rankEmoji (i : Nat) : String :=
  if i = 1 then "🥇" else if i = 2 then "🥈" else if i = 3 then "🥉" else "•"

/-- `description_text` accumulated over the enumerated top five
(lines 90-93). -/
def descriptionText (top : List (String × Int)) : String :=
  ((List.enumFrom 1 top).map
      (fun p => rankEmoji p.1 ++ " **" ++ p.2.1 ++ "**: " ++ toString p.2.2 ++ "%\n")).foldl
    (fun acc s => acc ++ s) ("")

/-- The embed built on the success path (lines 86-97). -/
def buildEmbed (top : List (String × Int)) : DiscordEmbed :=
  { title := "📅 Daily Boss Hunter Report (Celesta)"
    color := "00e676"
    url := BOSS_TRACKER_URL
    description := "Here are the top 5 bosses with the highest spawn chance today:"
    fields := [("Top 5 Chances", descriptionText top)]
    footer := "Data from ExevoPan.com" }

/-- `scrape_top_bosses` (lines 15-109): returns a pair
`(embed, error)` exactly as the script does, with the transport
outcome supplied as input. -/
def scrape_top_bosses (fetch : FetchResult) : Option DiscordEmbed × Option String :=
  match fetch with
  | .httpError http_err => (none, some (httpErrMsg http_err))
  | .success boss_articles =>
    if boss_articles.isEmpty then
      (none, some anchorNotFoundMsg)
    else
      let data := bosses_data boss_articles
      if data.isEmpty then
        (none, some parseFailMsg)
      else
        let top := (List.insertionSort byChanceDesc data).take 5
        if top.isEmpty then
          (none, some emptyTopMsg)
        else
          (some (buildEmbed top), none)

/-- A message handed to the Discord webhook by
`send_discord_message`: a plain error text, an embed report, or a
bare message when neither is supplied. -/
inductive Notification where
  | errorText (msg : String)
  | report (embed : DiscordEmbed)
  | blank
deriving DecidableEq, Repr

/-- The message-assembly part of `send_discord_message`
(lines 119-126): an error message wins over an embed. The
`webhook_url` emptiness check of lines 115-117 is handled by the
caller model `mainRun`, which only reaches this point with a
non-empty URL. -/
def send_discord_message (embed : Option DiscordEmbed)
    (error_message : Option String) : Notification :=
  match error_message with
  | some m => .errorText ("Bot Error: " ++ m)
  | none =>
    match embed with
    | some e => .report e
    | none => .blank

/-- Observable trace of one process run: whether the process exited
fatally at the configuration check (`sys.exit(1)`), whether the
fetch was attempted, and the notifications handed to the webhook. -/
structure RunTrace where
  fatalExit : Bool
  fetchAttempted : Bool
  notifications : List Notification
deriving DecidableEq, Repr

/-- The `__main__` block (lines 138-151): read
`DISCORD_WEBHOOK_URL` from the environment (`none` when unset);
`if not webhook_url` is also true for the empty string, so both
terminate with `sys.exit(1)` before any fetch; otherwise run
`scrape_top_bosses` and hand exactly one message to
`send_discord_message`. -/
def mainRun (env : Option String) (fetch : FetchResult) : RunTrace :=
  match env with
  | none => { fatalExit := true, fetchAttempted := false, notifications := [] }
  | some webhook_url =>
    if webhook_url = "" then
      { fatalExit := true, fetchAttempted := false, notifications := [] }
    else
      let result := scrape_top_bosses fetch
      let note :=
        match result.2 with
        | some err => send_discord_message none (some err)
        | none => send_discord_message result.1 none
      { fatalExit := false, fetchAttempted := true, notifications := [note] }

/-! ## Helper lemmas -/

/-- Inserting a record never disturbs the relative order of the
records of any fixed chance: the inserted record lands in front of
the first record of equal-or-lower chance, so all records it jumps
over have strictly greater chance. -/
theorem filter_orderedInsert_chance (a : String × Int) (l : List (String × Int))
    (c : Int) :
    (List.orderedInsert byChanceDesc a l).filter (fun r => r.2 == c) =
      if a.2 == c then a :: l.filter (fun r => r.2 == c)
      else l.filter (fun r => r.2 == c) := by
  induction l with
  | nil =>
    by_cases h : a.2 = c <;> simp [List.orderedInsert, List.filter_cons, h]
  | cons b l ih =>
    by_cases hab : byChanceDesc a b
    · by_cases hpa : a.2 = c <;> by_cases hpb : b.2 = c <;>
        simp [List.orderedInsert, if_pos hab, List.filter_cons, hpa, hpb]
    · simp only [List.orderedInsert, if_neg hab, List.filter_cons]
      by_cases hpb : ((b.2 == c) = true)
      · have hnpa : ¬ ((a.2 == c) = true) := by
          intro hpa
          apply hab
          have h1 : a.2 = c := by simpa using hpa
          have h2 : b.2 = c := by simpa using hpb
          simp [byChanceDesc, h1, h2]
        simp [hpb, ih, hnpa]
      · simp [hpb, ih]

/-- Stability of the sort step: filtering the sorted list down to
one chance value yields exactly the input's records of that chance,
in input order. -/
theorem filter_sort_chance (l : List (String × Int)) (c : Int) :
    (List.insertionSort byChanceDesc l).filter (fun r => r.2 == c) =
      l.filter (fun r => r.2 == c) := by
  induction l with
  | nil => rfl
  | cons a l ih =>
    simp only [List.insertionSort, filter_orderedInsert_chance, ih, List.filter_cons]

/-- The first character of an HTTP-error message, whatever the
exception text. -/
theorem httpErrMsg_head (e : String) : (httpErrMsg e).data.head? = some 'A' := by
  rw [httpErrMsg, String.data_append, String.data_append]; rfl

/-- The first character of an unexpected-error message, whatever the
exception text. -/
theorem unexpectedErrMsg_head (e : String) :
    (unexpectedErrMsg e).data.head? = some 'A' := by
  rw [unexpectedErrMsg, String.data_append, String.data_append]; rfl

theorem anchorNotFoundMsg_ne_httpErrMsg (e : String) :
    anchorNotFoundMsg ≠ httpErrMsg e := by
  intro h
  have hh := httpErrMsg_head e
  rw [← h] at hh
  exact absurd hh (by decide)

theorem anchorNotFoundMsg_ne_unexpectedErrMsg (e : String) :
    anchorNotFoundMsg ≠ unexpectedErrMsg e := by
  intro h
  have hh := unexpectedErrMsg_head e
  rw [← h] at hh
  exact absurd hh (by decide)

theorem parseFailMsg_ne_httpErrMsg (e : String) : parseFailMsg ≠ httpErrMsg e := by
  intro h
  have hh := httpErrMsg_head e
  rw [← h] at hh
  exact absurd hh (by decide)

/-! ## Claim theorems -/

/-- C4 (confirmed): for every input article sequence, the length of
the ranked output equals the minimum of the top-N bound (hard-coded
to 5 in the script) and the number of records surviving the filter
step. -/
theorem c4_output_length (boss_articles : List Article) :
    (top_5_bosses boss_articles).length =
      min 5 (bosses_data boss_articles).length := by
  have hp := (List.perm_insertionSort byChanceDesc (bosses_data boss_articles)).length_eq
  simp [top_5_bosses, sortedRecords, List.length_take, hp]

/-- C10 (confirmed): `scrape_top_bosses` always returns exactly one
of an embed report or an error message — whenever the report is
present the error is absent, and whenever the error is present the
report is absent; never both, never neither. -/
theorem c10_report_xor_error (fetch : FetchResult) :
    ((scrape_top_bosses fetch).1.isSome = true ∧ (scrape_top_bosses fetch).2 = none) ∨
    ((scrape_top_bosses fetch).1 = none ∧ (scrape_top_bosses fetch).2.isSome = true) := by
  cases fetch with
  | httpError e => right; simp [scrape_top_bosses]
  | success arts =>
    by_cases h1 : arts.isEmpty <;>
      by_cases h2 : (bosses_data arts).isEmpty <;>
      by_cases h3 : ((List.insertionSort byChanceDesc (bosses_data arts)).take 5).isEmpty <;>
      simp [scrape_top_bosses, h1, h2, h3]

/-- C6 (confirmed): a document in which the boss-data container
matches zero times (no `<article>` elements) makes the pipeline fail
with the anchor-not-found message, and that message differs from
every other failure message the pipeline can produce, whatever the
exception text of the parametrised ones. -/
theorem c6_anchor_not_found (e : String) :
    scrape_top_bosses (.success []) = (none, some anchorNotFoundMsg) ∧
    anchorNotFoundMsg ≠ parseFailMsg ∧
    anchorNotFoundMsg ≠ emptyTopMsg ∧
    anchorNotFoundMsg ≠ httpErrMsg e ∧
    anchorNotFoundMsg ≠ unexpectedErrMsg e :=
  ⟨by decide, by decide, by decide, anchorNotFoundMsg_ne_httpErrMsg e,
    anchorNotFoundMsg_ne_unexpectedErrMsg e⟩

/-- C7 (confirmed): when the webhook secret is absent from the
environment the process exits fatally before attempting any fetch
and hands nothing to the notification collaborator, whereas any run
that passes the configuration check does not exit fatally, attempts
the fetch, and reports — so the fatal exit is distinct from a
reported runtime failure. -/
theorem c7_missing_secret_fatal (fetch fetch2 : FetchResult) (url : String)
    (hurl : url ≠ "") :
    mainRun none fetch =
      { fatalExit := true, fetchAttempted := false, notifications := [] } ∧
    (mainRun (some url) fetch2).fatalExit = false ∧
    (mainRun (some url) fetch2).fetchAttempted = true ∧
    (mainRun (some url) fetch2).notifications ≠ [] := by
  refine ⟨rfl, ?_, ?_, ?_⟩ <;> simp [mainRun, hurl]

/-- C7 witness: the fatal-exit and the passing-configuration
behaviours at concrete inputs. -/
theorem c7_missing_secret_fatal_witness :
    mainRun none (.success []) =
      { fatalExit := true, fetchAttempted := false, notifications := [] } ∧
    (mainRun (some ("https://example.com/webhook")) (.httpError ("boom"))).fatalExit = false ∧
    (mainRun (some ("https://example.com/webhook")) (.httpError ("boom"))).fetchAttempted = true ∧
    (mainRun (some ("https://example.com/webhook")) (.httpError ("boom"))).notifications ≠ [] :=
  c7_missing_secret_fatal (.success []) (.httpError ("boom"))
    ("https://example.com/webhook") (by decide)

/-- C8 (confirmed): every run that passes the configuration check
hands exactly one notification to the webhook, whatever the fetch
outcome and however the pipeline ends. -/
theorem c8_exactly_one_notification (url : String) (fetch : FetchResult)
    (hurl : url ≠ "") :
    (mainRun (some url) fetch).notifications.length = 1 := by
  simp [mainRun, hurl]

/-- C8 witness: one notification on a concrete failing run. -/
theorem c8_exactly_one_notification_witness :
    ("https://example.com/hook" : String) ≠ "" ∧
    (mainRun (some ("https://example.com/hook"))
        (.success [⟨some ("A"), some ("10%")⟩])).notifications.length = 1 :=
  ⟨by decide, c8_exactly_one_notification _ _ (by decide)⟩

/-- The ranking scenario named by the specification: Ferumbras 12,
Morgaroth 45, Zulazza 45, Ghazbaran 0, in that document order. -/
def rankingScenario : List Article :=
  [⟨some ("Ferumbras"), some ("12%")⟩, ⟨some ("Morgaroth"), some ("45%")⟩,
   ⟨some ("Zulazza"), some ("45%")⟩, ⟨some ("Ghazbaran"), some ("0%")⟩]

/-- C1 counterexample: a record with chance 0 appears in the ranked
output — the script has no positive-chance filter. -/
theorem c1_counterexample :
    ("Ghazbaran", (0 : Int)) ∈ top_5_bosses [⟨some ("Ghazbaran"), some ("0%")⟩] ∧
    (0 : Int) ≤ 0 :=
  ⟨by decide, by decide⟩

/-- C1 (amended): the filter-and-rank step excludes no record on the
basis of its chance value; every record surviving the extraction
filter — whatever the sign of its chance — appears in the ranked
output whenever at most five records survive. -/
theorem c1_no_chance_filter (boss_articles : List Article) (r : String × Int)
    (hmem : r ∈ bosses_data boss_articles)
    (hlen : (bosses_data boss_articles).length ≤ 5) :
    r ∈ top_5_bosses boss_articles := by
  have hperm := List.perm_insertionSort byChanceDesc (bosses_data boss_articles)
  have hlen2 : (sortedRecords boss_articles).length ≤ 5 := by
    rw [sortedRecords, hperm.length_eq]; exact hlen
  rw [top_5_bosses, List.take_of_length_le hlen2, sortedRecords]
  exact hperm.mem_iff.mpr hmem

/-- C1 witness: the zero-chance record is retained. -/
theorem c1_no_chance_filter_witness :
    ("Ghazbaran", (0 : Int)) ∈ bosses_data [⟨some ("Ghazbaran"), some ("0%")⟩] ∧
    (bosses_data [⟨some ("Ghazbaran"), some ("0%")⟩]).length ≤ 5 ∧
    ("Ghazbaran", (0 : Int)) ∈ top_5_bosses [⟨some ("Ghazbaran"), some ("0%")⟩] :=
  ⟨by decide, by decide, c1_no_chance_filter _ _ (by decide) (by decide)⟩

/-- C2 counterexample: when articles are present but nothing parses,
the pipeline returns an error message — the same failure shape as a
transport failure — not a distinct success outcome. -/
theorem c2_counterexample :
    scrape_top_bosses (.success [⟨none, none⟩]) = (none, some parseFailMsg) := by
  decide

/-- C2 (amended): an empty retained set is a failure, not a success:
with articles present but no record parsed the result carries no
embed and the fixed parse-failure message, and with no articles at
all it carries the anchor-not-found message; the parse-failure
message is at least distinguishable from every transport failure
message by its text. -/
theorem c2_empty_retained_is_error (boss_articles : List Article)
    (hne : boss_articles ≠ [])
    (hempty : bosses_data boss_articles = []) :
    scrape_top_bosses (.success boss_articles) = (none, some parseFailMsg) ∧
    scrape_top_bosses (.success []) = (none, some anchorNotFoundMsg) ∧
    (∀ e, parseFailMsg ≠ httpErrMsg e) := by
  refine ⟨?_, by decide, parseFailMsg_ne_httpErrMsg⟩
  have h1 : boss_articles.isEmpty = false := by
    cases boss_articles
    · exact absurd rfl hne
    · rfl
  simp [scrape_top_bosses, h1, hempty]

/-- C2 witness: a one-article document whose article parses to
nothing. -/
theorem c2_empty_retained_is_error_witness :
    scrape_top_bosses (.success [(⟨none, none⟩ : Article)]) = (none, some parseFailMsg) ∧
    scrape_top_bosses (.success []) = (none, some anchorNotFoundMsg) ∧
    (∀ e, parseFailMsg ≠ httpErrMsg e) :=
  c2_empty_retained_is_error [⟨none, none⟩] (by decide) (by decide)

/-- C3 counterexample: on the specification's ranking scenario the
output is not the claimed three-record list, because the zero-chance
record is not excluded. -/
theorem c3_counterexample :
    top_5_bosses rankingScenario ≠
      [("Morgaroth", 45), ("Zulazza", 45), ("Ferumbras", 12)] := by
  decide

/-- C3 (amended): the ranked output is sorted by chance descending
and the sort is stable — records of any fixed chance keep their
document order — but on the specification's scenario the output also
keeps the zero-chance record, giving four records, not three. -/
theorem c3_sorted_stable (boss_articles : List Article) (c : Int) :
    List.Pairwise (fun a b : String × Int => b.2 ≤ a.2) (top_5_bosses boss_articles) ∧
    (sortedRecords boss_articles).filter (fun r => r.2 == c) =
      (bosses_data boss_articles).filter (fun r => r.2 == c) ∧
    top_5_bosses rankingScenario =
      [("Morgaroth", 45), ("Zulazza", 45), ("Ferumbras", 12), ("Ghazbaran", 0)] := by
  refine ⟨?_, filter_sort_chance _ c, by decide⟩
  rw [top_5_bosses]
  exact List.Pairwise.sublist (List.take_sublist 5 _)
    (List.sorted_insertionSort byChanceDesc (bosses_data boss_articles))

/-- C5 counterexample: an article whose `<a>` text is empty is not
skipped — its record, with empty name, appears in the output. -/
theorem c5_counterexample :
    ("", (50 : Int)) ∈ top_5_bosses [⟨some (""), some ("50%")⟩] := by
  decide

/-- C5 (amended): an article missing its name element or its chance
element is silently skipped — it contributes no record and leaves
the whole pipeline result unchanged — but an article whose name text
is empty is retained, with the empty string as its name, provided
its chance parses. -/
theorem c5_missing_fields_skipped (a : Article) (l1 l2 : List Article)
    (h : a.boss_name_element = none ∨ a.chance_element = none)
    (hne : (l1 ++ l2).isEmpty = false) :
    bosses_data (l1 ++ a :: l2) = bosses_data (l1 ++ l2) ∧
    scrape_top_bosses (.success (l1 ++ a :: l2)) =
      scrape_top_bosses (.success (l1 ++ l2)) ∧
    parseArticle ⟨some (""), some ("50%")⟩ = some ("", 50) := by
  have hpa : parseArticle a = none := by
    rcases h with h | h
    · simp [parseArticle, h]
    · cases ha : a.boss_name_element <;> simp [parseArticle, h, ha]
  have hbd : bosses_data (l1 ++ a :: l2) = bosses_data (l1 ++ l2) := by
    simp [bosses_data, List.filterMap_append, List.filterMap_cons, hpa]
  refine ⟨hbd, ?_, by decide⟩
  have hne2 : (l1 ++ a :: l2).isEmpty = false := by
    cases l1 <;> rfl
  simp only [scrape_top_bosses, hbd, hne, hne2]

/-- C5 witness: a name-less article inserted into a one-article
document changes nothing. -/
theorem c5_missing_fields_skipped_witness :
    bosses_data ([] ++ (⟨none, some ("1%")⟩ : Article) :: [⟨some ("X"), some ("2%")⟩]) =
      bosses_data ([] ++ [(⟨some ("X"), some ("2%")⟩ : Article)]) ∧
    scrape_top_bosses (.success ([] ++ (⟨none, some ("1%")⟩ : Article) :: [⟨some ("X"), some ("2%")⟩])) =
      scrape_top_bosses (.success ([] ++ [(⟨some ("X"), some ("2%")⟩ : Article)])) ∧
    parseArticle ⟨some (""), some ("50%")⟩ = some ("", 50) :=
  c5_missing_fields_skipped ⟨none, some ("1%")⟩ [] [⟨some ("X"), some ("2%")⟩]
    (Or.inl rfl) (by decide)

/-- C9 (confirmed): every chance exposed in the ranked output is an
integer obtained from its article's chance text by the one
conversion `parseChance` — strip, parse as a decimal, truncate
toward zero — and that conversion truncates fractional values
(12.9 ↦ 12, 12.2 ↦ 12, -3.7 ↦ -3), uniformly for every record. -/
theorem c9_uniform_truncation (boss_articles : List Article) (r : String × Int)
    (hmem : r ∈ top_5_bosses boss_articles) :
    (∃ a ∈ boss_articles, ∃ ct, a.chance_element = some ct ∧
        parseChance (pyStrip ct) = some r.2) ∧
    parseChance ("12.9%") = some 12 ∧
    parseChance ("12.2%") = some 12 ∧
    parseChance ("-3.7%") = some (-3) := by
  refine ⟨?_, by decide, by decide, by decide⟩
  have h1 : r ∈ bosses_data boss_articles := by
    have h2 : r ∈ sortedRecords boss_articles := List.mem_of_mem_take hmem
    rw [sortedRecords] at h2
    exact (List.perm_insertionSort byChanceDesc _).mem_iff.mp h2
  rcases List.mem_filterMap.mp h1 with ⟨a, ha, hpa⟩
  refine ⟨a, ha, ?_⟩
  rcases hn : a.boss_name_element with _ | nameEl <;>
    rcases hc : a.chance_element with _ | chanceEl <;>
    simp [parseArticle, hn, hc] at hpa
  rcases hpc : parseChance (pyStrip chanceEl) with _ | v <;>
    simp [hpc] at hpa
  exact ⟨chanceEl, rfl, by rw [hpc, ← hpa, Prod.snd]⟩

/-- C9 witness: a concrete fractional-chance record. -/
theorem c9_uniform_truncation_witness :
    (∃ a ∈ [(⟨some ("Boss"), some ("12.9%")⟩ : Article)], ∃ ct,
        a.chance_element = some ct ∧
        parseChance (pyStrip ct) = some (("Boss", (12 : Int)).2)) ∧
    parseChance ("12.9%") = some 12 ∧
    parseChance ("12.2%") = some 12 ∧
    parseChance ("-3.7%") = some (-3) :=
  c9_uniform_truncation [⟨some ("Boss"), some ("12.9%")⟩] ("Boss", 12) (by decide)
